import Mathlib

/-!
Verification of the snake contribution workflow generator
(`generate_snake_workflow.py`).

The development shallow-embeds the Python source: each Python function is
translated to a Lean definition over a typed configuration model, and the
file-system effects of `create_workflow_files` are made explicit (the
pre-existing README content is an `Option String` input, the written files
are returned as data).  String values are Lean `String`s; Python truthiness
of optional string fields is modelled by `truthy`.
-/

set_option autoImplicit false

namespace SnakeGen

/-! ### Python-style string helpers -/

/-- Python `str(b).lower()` for a boolean `b`. -/
def pyBoolStr (b : Bool) : String := if b then "true" else "false"

/-- Python truthiness of an optional string value: `None` and the empty
string are falsy, every other string is truthy. -/
def truthy : Option String → Bool
  | none => false
  | some s => s != ""

/-- Python `sep.join(parts)`. -/
def joinSep (sep : String) : List String → String
  | [] => ""
  | [x] => x
  | x :: y :: rest => x ++ sep ++ joinSep sep (y :: rest)

/-- Whether every character of `s` is whitespace.  Python
`not s.strip()` is true exactly when `s` consists solely of whitespace
characters (stripping leading and trailing whitespace leaves the empty
string); over the ASCII whitespace handled here this coincides with
`Char.isWhitespace`. -/
def allWhite (s : String) : Bool := s.data.all Char.isWhitespace

/-- Python `s.rstrip()`: remove trailing whitespace. -/
def rstripStr (s : String) : String :=
  ⟨(s.data.reverse.dropWhile Char.isWhitespace).reverse⟩

/-- Python `s.lower()` (ASCII case folding). -/
def lowerStr (s : String) : String := ⟨s.data.map Char.toLower⟩

/-- Does the list `pat` occur at the head of the second list? -/
def charsAtHead : List Char → List Char → Bool
  | [], _ => true
  | _ :: _, [] => false
  | p :: ps, c :: cs => p == c && charsAtHead ps cs

/-- Does `pat` occur somewhere in the second list? -/
def charsHasSub (pat : List Char) : List Char → Bool
  | [] => pat.isEmpty
  | c :: cs => charsAtHead pat (c :: cs) || charsHasSub pat cs

/-- Python substring test `pat in s` for strings. -/
def hasSub (pat s : String) : Bool := charsHasSub pat.data s.data

/-- The proposition that `pat` occurs verbatim inside `s`. -/
def occursIn (pat s : String) : Prop := ∃ pre post, s = pre ++ pat ++ post

/-! ### Configuration data model

Typed model of the YAML configuration dictionary consumed by the
generator.  An `Option` field set to `none` models an absent key, so
`o.field.getD d` is Python `o.get(field, d)`. -/

/-- One entry of the `outputs` list (source: OutputSpec). -/
structure OutputSpec where
  path : Option String := none
  type : Option String := none
  palette : Option String := none
  color_snake : Option String := none
  color_dots : Option String := none
  deriving DecidableEq

/-- The `github` section of the configuration. -/
structure GithubSection where
  username : Option String := none
  deriving DecidableEq

/-- The `automation` section of the configuration. -/
structure AutomationSection where
  enabled : Option Bool := none
  schedule : Option String := none
  auto_commit : Option Bool := none
  commit_branch : Option String := none
  commit_message : Option String := none
  deriving DecidableEq

/-- The `readme_integration` section of the configuration. -/
structure ReadmeSection where
  enabled : Option Bool := none
  tag_type : Option String := none
  position : Option String := none
  readme_path : Option String := none
  deriving DecidableEq

/-- The whole configuration document. -/
structure Config where
  github : Option GithubSection := none
  outputs : Option (List OutputSpec) := none
  automation : Option AutomationSection := none
  readme_integration : Option ReadmeSection := none
  deriving DecidableEq

/-! ### generate_github_workflow (source lines 35-114) -/

/-- The line contributed to the outputs section by the output spec at
index `i` (source lines 50-64 of the loop body): six spaces, the path
(defaulting to `output-i.svg`), the query string built from the truthy
optional fields `palette`, `color_snake`, `color_dots` in that order,
and a newline. -/
def output_line (i : Nat) (output : OutputSpec) : String :=
  let path := output.path.getD ("output-" ++ toString i ++ ".svg")
  let query_params : List String :=
    (if truthy output.palette then ["palette=" ++ output.palette.getD ""] else [])
      ++ (if truthy output.color_snake then ["color_snake=" ++ output.color_snake.getD ""] else [])
      ++ (if truthy output.color_dots then ["color_dots=" ++ output.color_dots.getD ""] else [])
  let query_string := if query_params.isEmpty then "" else "?" ++ joinSep "&" query_params
  "      " ++ path ++ query_string ++ "\n"

/-- The `for i, output in enumerate(outputs_config)` accumulation loop
(source lines 49-64), starting at index `i`. -/
def outputs_loop : Nat → List OutputSpec → String
  | _, [] => ""
  | i, output :: rest => output_line i output ++ outputs_loop (i + 1) rest

/-- The outputs section after the fallback check (source lines 49-67):
when the accumulated section is all whitespace (Python
`not outputs_section.strip()`), a single default filename line is used
instead. -/
def outputs_section (config : Config) : String :=
  let s := outputs_loop 0 (config.outputs.getD [])
  if allWhite s then "      github-contribution-grid-snake.svg\n" else s

/-- The cron schedule fragment (source lines 70-75): empty when
automation is disabled, otherwise the schedule block with the configured
or default cron string. -/
def cron_schedule (config : Config) : String :=
  let automation_config := config.automation.getD {}
  if automation_config.enabled.getD true then
    "\n  schedule:\n    - cron: \"" ++ automation_config.schedule.getD "0 0 1,15 * *" ++ "\"\n"
  else ""

/-- The workflow text (source lines 77-114).  The f-string template is
reproduced literal-for-literal; interpolation points are string
concatenations.  Long literals are split at the boundaries used by the
theorems below; their concatenation is byte-identical to the source
template. -/
def generate_github_workflow (config : Config) : String :=
  let github_config := config.github.getD {}
  let automation_config := config.automation.getD {}
  let username := github_config.username.getD "$\x7bgithub.repository_owner\x7d"
  let auto_commit := automation_config.auto_commit.getD true
  let commit_message :=
    automation_config.commit_message.getD "Update snake contributions on $\x7bDATE\x7d"
  "name: Generate Snake Contributions\n\non:\n  push:\n    branches: [\"main\", \"master\"]\n  pull_request:\n    branches: [\"main\", \"master\"]\n"
    ++ cron_schedule config
    ++ "\n\njobs:\n  generate-snake:\n    runs-on: ubuntu-latest\n    \n    steps:\n    - name: Checkout repository\n      uses: actions/checkout@v4\n      \n    - name: Generate snake contribution graphics\n      uses: Platane/snk@v3\n      with:\n        github_user_name: "
    ++ username
    ++ "\n        outputs: |\n"
    ++ rstripStr (outputs_section config)
    ++ "\n    \n    "
    ++ "- name: Commit changes\n      if: "
    ++ pyBoolStr auto_commit
    ++ "\n      run: |\n        git config --local user.email \"action@github.com\"\n        git config --local user.name \"GitHub Action\"\n        git add .\n        git diff --staged --quiet || "
    ++ "git commit -m \""
    ++ commit_message
    ++ "\""
    ++ "\n        git push\n        \n      env:\n        GITHUB_TOKEN: $\x7b\x7b secrets.GITHUB_TOKEN \x7d\x7d\n"

/-! ### generate_readme_content (source lines 116-151) -/

/-- The `type` filter of source line 125: Python `o.get(type) == svg` is
false when the field is absent (`None != svg`). -/
def isSvg (output : OutputSpec) : Bool := output.type == some "svg"

/-- The dark-variant test of source line 135: the lowercased path
(absent path defaulting to the empty string) has `dark` as a substring. -/
def isDarkPath (output : OutputSpec) : Bool :=
  hasSub "dark" (lowerStr (output.path.getD ""))

/-- The dual-source picture markup (source lines 143-147). -/
def pictureTag (dark_svg primary_svg : String) : String :=
  "<picture>\n  <source media=\"(prefers-color-scheme: dark)\" srcset=\""
    ++ dark_svg
    ++ "\" />\n  <source media=\"(prefers-color-scheme: light)\" srcset=\""
    ++ primary_svg
    ++ "\" />\n  <img alt=\"Snake Contribution Graphics\" src=\""
    ++ primary_svg
    ++ "\" />\n</picture>"

/-- The plain image markup (source line 149). -/
def imgTag (primary_svg : String) : String :=
  "<img src=\"" ++ primary_svg ++ "\" alt=\"Snake Contribution Graphics\" />"

/-- README markup generation (source lines 116-151).  Returns the empty
string unless readme integration is enabled and some output has type
`svg`; otherwise the first svg output is the primary image, the first
svg output whose lowercased path includes `dark` gives the dark variant,
and the picture construct is emitted exactly when the tag type
(default `picture`) is `picture` and the dark variant is truthy.  The
source also binds `position` at line 140 but never uses it. -/
def generate_readme_content (config : Config) : String :=
  let readme_config := config.readme_integration.getD {}
  if !(readme_config.enabled.getD false) then "" else
  let outputs_config := config.outputs.getD []
  let svg_outputs := outputs_config.filter isSvg
  match svg_outputs with
  | [] => ""
  | first :: _ =>
    let primary_svg := first.path.getD "github-snake.svg"
    let dark_svg : Option String := (svg_outputs.find? isDarkPath).bind (·.path)
    let tag_type := readme_config.tag_type.getD "picture"
    if tag_type == "picture" && truthy dark_svg then
      pictureTag (dark_svg.getD "") primary_svg
    else
      imgTag primary_svg

/-! ### create_workflow_files (source lines 153-220)

The file-system interaction is made explicit: the content of a
pre-existing README at the target path is an `Option String` argument
(`none` models a missing file), and the effect on the file system is
returned as data. -/

/-- What happened to the README during `create_workflow_files`. -/
inductive ReadmeEffect where
  /-- The generated markup was empty, so no README was touched
  (source line 171 guard). -/
  | noReadme : ReadmeEffect
  /-- No file existed at the README path, so the variable `backup_path`
  was never assigned (source lines 176-178 were skipped) and evaluating
  `os.path.exists(backup_path)` at source line 196, 202 or 212 raises an
  unhandled `NameError`; no README is written. -/
  | nameError : ReadmeEffect
  /-- A README was written at `path` with `content`; `backup` holds the
  path and byte-identical content of the backup of the pre-existing
  README, when one existed. -/
  | written (path content : String) (backup : Option (String × String)) : ReadmeEffect
  deriving DecidableEq

/-- The README part of `create_workflow_files` (source lines 169-220).
When a README exists it is first renamed to `<path>.backup`
(lines 176-179), so the later `os.path.exists(backup_path)` checks are
all true; the `position` branches then produce, per source
lines 185-215: for `top`, markup ++ two newlines ++ original; for
`bottom`, original ++ two newlines ++ markup ++ newline; for any other
position, markup ++ one newline ++ original. -/
def readme_effect (config : Config) (orig : Option String) : ReadmeEffect :=
  let readme_content := generate_readme_content config
  if readme_content = "" then .noReadme else
  let readme_config := config.readme_integration.getD {}
  let readme_path := readme_config.readme_path.getD "README.md"
  match orig with
  | none => .nameError
  | some existing_content =>
    let backup_path := readme_path ++ ".backup"
    let position := readme_config.position.getD "top"
    let new_readme :=
      if position = "top" then (readme_content ++ "\n\n") ++ existing_content
      else if position = "bottom" then
        existing_content ++ "\n\n" ++ readme_content ++ "\n"
      else
        (readme_content ++ "\n") ++ existing_content
    .written readme_path new_readme (some (backup_path, existing_content))

/-- The files produced by one run of `create_workflow_files`. -/
structure RunResult where
  /-- Path and content of the workflow file, written unconditionally
  (source lines 157-165). -/
  workflow : Option (String × String)
  /-- The effect on the README. -/
  readme : ReadmeEffect
  deriving DecidableEq

/-- Model of `create_workflow_files` (source lines 153-220): the workflow file is
written first, then the README step runs. -/
def create_workflow_files (config : Config) (orig : Option String) : RunResult :=
  { workflow := some (".github/workflows/generate-snake.yml", generate_github_workflow config),
    readme := readme_effect config orig }

/-! ### load_config (source lines 15-33)

The YAML document is modelled by an untyped value tree, because the
behaviour under scrutiny is exactly what happens when the top-level
value is not a mapping.  The file system is an `Option (Except String
Yaml)` argument: `none` models a missing file (`FileNotFoundError`),
`some (.error e)` a file whose content is not valid YAML
(`yaml.YAMLError`), and `some (.ok v)` a successful parse. -/

/-- An untyped YAML value. -/
inductive Yaml where
  | null : Yaml
  | bool (b : Bool) : Yaml
  | int (n : Int) : Yaml
  | str (s : String) : Yaml
  | list (items : List Yaml) : Yaml
  | map (entries : List (String × Yaml)) : Yaml

/-- Python membership `needle in v` for a string needle: a `TypeError`
for the non-container scalars `None`, booleans and numbers; a substring
test for strings; an element-equality scan for lists (only string
elements can equal a string); a key lookup for mappings. -/
def pyIn (needle : String) : Yaml → Except String Bool
  | .null => .error "TypeError"
  | .bool _ => .error "TypeError"
  | .int _ => .error "TypeError"
  | .str s => .ok (hasSub needle s)
  | .list items => .ok (items.any fun v => match v with | .str s => s == needle | _ => false)
  | .map entries => .ok (entries.any fun kv => kv.1 == needle)

/-- How `load_config` ends. -/
inductive LoadResult where
  /-- A `FileNotFoundError` was caught; a message was printed and
  `sys.exit(1)` called (source lines 28-30). -/
  | exitNotFound : LoadResult
  /-- A `yaml.YAMLError` was caught; a message was printed and
  `sys.exit(1)` called (source lines 31-33). -/
  | exitParseError : LoadResult
  /-- An exception escaped `load_config`: neither `except` clause
  matches a `TypeError` or `ValueError`, so the process terminates with
  a traceback. -/
  | uncaught (exc : String) : LoadResult
  /-- The parsed configuration was returned (source line 27). -/
  | ok (config : Yaml) : LoadResult

/-- Model of `load_config` (source lines 15-33).  The required-field loop checks
`field not in config` for the single required field `github`; when the
membership test itself raises (`TypeError` for a non-container
top-level value) or when it fails and the `ValueError` of line 25 is
raised, neither `except FileNotFoundError` nor `except yaml.YAMLError`
matches, so the exception is uncaught. -/
def load_config (file : Option (Except String Yaml)) : LoadResult :=
  match file with
  | none => .exitNotFound
  | some (.error _) => .exitParseError
  | some (.ok config) =>
    match pyIn "github" config with
    | .error exc => .uncaught exc
    | .ok true => .ok config
    | .ok false => .uncaught "ValueError"

/-- The process exit code determined by the `load_config` stage: `some 1`
when `sys.exit(1)` runs or an exception propagates out of `main`
uncaught (Python terminates with status 1 on an unhandled exception);
`none` when `load_config` returns and the run continues. -/
def processExit : LoadResult → Option Nat
  | .exitNotFound => some 1
  | .exitParseError => some 1
  | .uncaught _ => some 1
  | .ok _ => none

/-- The README content written by a run, when one was written. -/
def writtenContent : ReadmeEffect → Option String
  | .written _ content _ => some content
  | _ => none

/-- Replace the `position` field of the readme section. -/
def withPosition (config : Config) (p : Option String) : Config :=
  { config with
    readme_integration := some { config.readme_integration.getD {} with position := p } }

/-! ### Concrete configurations used as test inputs -/

/-- Two svg outputs, one with a palette option. -/
def c1cfg : Config :=
  { outputs := some [ { path := some "a.svg", type := some "svg" },
                      { path := some "b-dark.svg", type := some "svg",
                        palette := some "github-dark" } ] }

/-- A single output whose explicit path is the empty string, so its
rendered line is pure whitespace. -/
def c1cfgBlank : Config := { outputs := some [ { path := some "" } ] }

/-- Readme integration enabled, one svg output, position top. -/
def c2cfg : Config :=
  { outputs := some [ { path := some "snake.svg", type := some "svg" } ],
    readme_integration := some { enabled := some true, position := some "top" } }

/-- Readme integration enabled, one svg output, position middle. -/
def c3cfg : Config :=
  { outputs := some [ { path := some "a.svg", type := some "svg" } ],
    readme_integration := some { enabled := some true, position := some "middle" } }

/-- Readme integration enabled with one svg output and no position. -/
def c4cfg : Config :=
  { outputs := some [ { path := some "snake.svg", type := some "svg" } ],
    readme_integration := some { enabled := some true } }

/-- Automation disabled. -/
def c5cfg : Config := { automation := some { enabled := some false } }

/-- Auto-commit disabled, commit message left to its default. -/
def c7cfg : Config :=
  { automation := some { enabled := some true, auto_commit := some false } }

/-- Readme integration enabled with a light and a dark svg output. -/
def c8cfg : Config :=
  { outputs := some [ { path := some "a.svg", type := some "svg" },
                      { path := some "b-dark.svg", type := some "svg" } ],
    readme_integration := some { enabled := some true } }

/-- Readme integration enabled, but the single output omits `type`. -/
def c10cfg : Config :=
  { outputs := some [ { path := some "grid.gif" } ],
    readme_integration := some { enabled := some true } }

end SnakeGen

namespace SnakeGen

/-! ### General lemmas -/

theorem foldl_append_str (l : List String) (s : String) :
    List.foldl (· ++ ·) s l = s ++ String.join l := by
  induction l generalizing s with
  | nil => exact (String.append_empty s).symm
  | cons a t ih =>
    show List.foldl (· ++ ·) (s ++ a) t = s ++ String.join (a :: t)
    rw [ih]
    show s ++ a ++ String.join t = s ++ List.foldl (· ++ ·) ("" ++ a) t
    rw [String.empty_append, ih, String.append_assoc]

theorem join_cons (s : String) (l : List String) :
    String.join (s :: l) = s ++ String.join l := by
  show List.foldl (· ++ ·) ("" ++ s) l = s ++ String.join l
  rw [String.empty_append, foldl_append_str]

theorem find?_eq_head_filter {α : Type} (p : α → Bool) (l : List α) :
    l.find? p = (l.filter p).head? := by
  induction l with
  | nil => rfl
  | cons a t ih =>
    by_cases h : p a
    · simp [List.find?_cons, List.filter_cons, h]
    · simp only [List.find?_cons, List.filter_cons, h]
      simpa using ih

theorem append_ne_empty_left (a b : String) (h : a ≠ "") : a ++ b ≠ "" := by
  intro hab
  apply h
  have hd := congrArg String.data hab
  rw [String.data_append] at hd
  have ha : a.data = [] := (List.append_eq_nil.mp hd).1
  cases a
  simpa [String.ext_iff] using ha

theorem occursIn_trans {a b s : String} (h1 : occursIn a b) (h2 : occursIn b s) :
    occursIn a s := by
  obtain ⟨p, q, hb⟩ := h1
  obtain ⟨pre, post, hs⟩ := h2
  exact ⟨pre ++ p, q ++ post, by rw [hs, hb]; simp [String.append_assoc]⟩

/-! ### Lemmas about the embedded program -/

/-- The accumulation loop renders one line per output spec, in input
order, with the running index. -/
theorem outputs_loop_eq_join (n : Nat) (l : List OutputSpec) :
    outputs_loop n l = String.join ((l.enumFrom n).map fun p => output_line p.1 p.2) := by
  induction l generalizing n with
  | nil => rfl
  | cons o t ih => simp [outputs_loop, List.enumFrom, List.map_cons, join_cons, ih]

theorem pictureTag_ne_empty (d p : String) : pictureTag d p ≠ "" := by
  unfold pictureTag
  apply append_ne_empty_left
  apply append_ne_empty_left
  apply append_ne_empty_left
  apply append_ne_empty_left
  apply append_ne_empty_left
  apply append_ne_empty_left
  decide

theorem imgTag_ne_empty (p : String) : imgTag p ≠ "" := by
  unfold imgTag
  apply append_ne_empty_left
  apply append_ne_empty_left
  decide

/-- With readme integration enabled and at least one svg output, the
generated markup is non-empty. -/
theorem generate_readme_content_ne_empty (config : Config)
    (he : (config.readme_integration.getD {}).enabled.getD false = true)
    (hs : (config.outputs.getD []).filter isSvg ≠ []) :
    generate_readme_content config ≠ "" := by
  obtain ⟨o, t, hot⟩ := List.exists_cons_of_ne_nil hs
  simp only [generate_readme_content, he, hot, Bool.not_true, Bool.false_eq_true, if_false]
  split
  · exact pictureTag_ne_empty _ _
  · exact imgTag_ne_empty _

end SnakeGen

namespace SnakeGen

example : output_line 0 { path := some "a.svg", palette := some "github-dark" }
    = "      a.svg?palette=github-dark\n" := by decide

example : output_line 1 { } = "      output-1.svg\n" := by decide

example : outputs_section { outputs := some [{ path := some "" }] }
    = "      github-contribution-grid-snake.svg\n" := by decide

end SnakeGen

set_option maxRecDepth 16384

namespace SnakeGen

/-- Changing only the `position` field does not change the generated
markup (the source binds `position` in `generate_readme_content` but
never uses it). -/
theorem grc_withPosition (config : Config) (p : Option String) :
    generate_readme_content (withPosition config p) = generate_readme_content config := by
  simp [generate_readme_content, withPosition]

/-- An output that passes the dark-path test has a truthy path. -/
theorem truthy_of_isDarkPath (o : OutputSpec) (h : isDarkPath o = true) :
    truthy o.path = true := by
  cases hp : o.path with
  | none =>
    rw [isDarkPath, hp] at h
    exact absurd h (by decide)
  | some s =>
    by_cases hs : s = ""
    · subst hs
      rw [isDarkPath, hp] at h
      exact absurd h (by decide)
    · simp [truthy, hs]

/-- The commit step header occurs in the workflow text of every
configuration: the template always contains it, whatever the
auto-commit flag. -/
theorem commit_step_always (config : Config) :
    occursIn "- name: Commit changes" (generate_github_workflow config) := by
  refine ⟨"name: Generate Snake Contributions\n\non:\n  push:\n    branches: [\"main\", \"master\"]\n  pull_request:\n    branches: [\"main\", \"master\"]\n"
    ++ cron_schedule config
    ++ "\n\njobs:\n  generate-snake:\n    runs-on: ubuntu-latest\n    \n    steps:\n    - name: Checkout repository\n      uses: actions/checkout@v4\n      \n    - name: Generate snake contribution graphics\n      uses: Platane/snk@v3\n      with:\n        github_user_name: "
    ++ ((config.github.getD {}).username.getD "$\x7bgithub.repository_owner\x7d")
    ++ "\n        outputs: |\n"
    ++ rstripStr (outputs_section config)
    ++ "\n    \n    ",
    "\n      if: "
    ++ pyBoolStr ((config.automation.getD {}).auto_commit.getD true)
    ++ "\n      run: |\n        git config --local user.email \"action@github.com\"\n        git config --local user.name \"GitHub Action\"\n        git add .\n        git diff --staged --quiet || "
    ++ "git commit -m \""
    ++ ((config.automation.getD {}).commit_message.getD "Update snake contributions on $\x7bDATE\x7d")
    ++ "\""
    ++ "\n        git push\n        \n      env:\n        GITHUB_TOKEN: $\x7b\x7b secrets.GITHUB_TOKEN \x7d\x7d\n", ?_⟩
  simp only [generate_github_workflow]
  rw [show ("- name: Commit changes\n      if: " : String)
      = "- name: Commit changes" ++ "\n      if: " from rfl]
  simp only [String.append_assoc]

/-- Claim C1 (amended): for a configuration whose `outputs` list is
present and non-empty and whose rendered lines are not all whitespace
(the fallback of source lines 66-67 replaces an all-whitespace section
with the single default filename line), the outputs section is exactly
one line per OutputSpec, in input order, each line being the path
(defaulting to `output-i.svg`) followed by the query string built from
the non-empty optional fields; the workflow text embeds this section
after stripping the trailing newline. -/
theorem c1_output_block (config : Config) (l : List OutputSpec)
    (hl : config.outputs = some l) (hne : l ≠ [])
    (hw : allWhite (outputs_loop 0 l) = false) :
    outputs_section config = String.join (l.enum.map fun p => output_line p.1 p.2) ∧
    ∃ pre post, generate_github_workflow config
        = pre ++ rstripStr (outputs_section config) ++ post := by
  constructor
  · simp only [outputs_section, hl, Option.getD_some, hw, Bool.false_eq_true, if_false]
    simp [outputs_loop_eq_join, List.enum]
  · refine ⟨"name: Generate Snake Contributions\n\non:\n  push:\n    branches: [\"main\", \"master\"]\n  pull_request:\n    branches: [\"main\", \"master\"]\n"
      ++ cron_schedule config
      ++ "\n\njobs:\n  generate-snake:\n    runs-on: ubuntu-latest\n    \n    steps:\n    - name: Checkout repository\n      uses: actions/checkout@v4\n      \n    - name: Generate snake contribution graphics\n      uses: Platane/snk@v3\n      with:\n        github_user_name: "
      ++ ((config.github.getD {}).username.getD "$\x7bgithub.repository_owner\x7d")
      ++ "\n        outputs: |\n",
      "\n    \n    "
      ++ "- name: Commit changes\n      if: "
      ++ pyBoolStr ((config.automation.getD {}).auto_commit.getD true)
      ++ "\n      run: |\n        git config --local user.email \"action@github.com\"\n        git config --local user.name \"GitHub Action\"\n        git add .\n        git diff --staged --quiet || "
      ++ "git commit -m \""
      ++ ((config.automation.getD {}).commit_message.getD "Update snake contributions on $\x7bDATE\x7d")
      ++ "\""
      ++ "\n        git push\n        \n      env:\n        GITHUB_TOKEN: $\x7b\x7b secrets.GITHUB_TOKEN \x7d\x7d\n", ?_⟩
    simp only [generate_github_workflow, String.append_assoc]

/-- Claim C1 witness: the amended theorem applied to a concrete
two-output configuration. -/
theorem c1_output_block_witness :
    outputs_section c1cfg
      = String.join (([ { path := some "a.svg", type := some "svg" },
          { path := some "b-dark.svg", type := some "svg", palette := some "github-dark" } ]
          : List OutputSpec).enum.map fun p => output_line p.1 p.2) :=
  (c1_output_block c1cfg _ rfl (by decide) (by decide)).1

/-- Claim C1 counterexample: with the non-empty outputs list containing
one spec whose path is the empty string, the rendered section is all
whitespace, so the emitted output block is the default fallback line and
not the concatenation of per-spec lines that the claim asserts. -/
theorem c1_counterexample :
    c1cfgBlank.outputs.getD [] ≠ [] ∧
    outputs_section c1cfgBlank
      ≠ String.join ((c1cfgBlank.outputs.getD []).enum.map fun p => output_line p.1 p.2) := by
  exact ⟨by decide, by decide⟩

/-- Claim C2: with readme integration enabled, exactly one output of
type svg, resolved position top and an existing README with content
`c`, `create_workflow_files` writes the workflow file and a README whose
content is the generated markup, two newlines, then `c`; the old README
is renamed to the backup path with byte-identical content. -/
theorem c2_readme_top (config : Config) (c : String)
    (he : (config.readme_integration.getD {}).enabled.getD false = true)
    (h1 : ((config.outputs.getD []).filter isSvg).length = 1)
    (hp : (config.readme_integration.getD {}).position.getD "top" = "top") :
    (create_workflow_files config (some c)).workflow
        = some (".github/workflows/generate-snake.yml", generate_github_workflow config) ∧
    (create_workflow_files config (some c)).readme
        = .written ((config.readme_integration.getD {}).readme_path.getD "README.md")
            (generate_readme_content config ++ "\n\n" ++ c)
            (some ((config.readme_integration.getD {}).readme_path.getD "README.md"
              ++ ".backup", c)) := by
  have hf : (config.outputs.getD []).filter isSvg ≠ [] := by
    intro h0; rw [h0] at h1; simp at h1
  have hne := generate_readme_content_ne_empty config he hf
  exact ⟨rfl, by simp [create_workflow_files, readme_effect, hne, hp]⟩

/-- Claim C2 witness: the theorem applied to a concrete configuration
and the original README content Hello. -/
theorem c2_readme_top_witness :
    (create_workflow_files c2cfg (some "Hello")).workflow
        = some (".github/workflows/generate-snake.yml", generate_github_workflow c2cfg) ∧
    (create_workflow_files c2cfg (some "Hello")).readme
        = .written "README.md" (generate_readme_content c2cfg ++ "\n\n" ++ "Hello")
            (some ("README.md.backup", "Hello")) :=
  c2_readme_top c2cfg "Hello" rfl (by decide) rfl

/-- Claim C3 (amended): for readme integration active, an existing
README and a position that is neither top nor bottom, the written
content is the markup, ONE newline, then the original text, whereas
position top writes the markup, TWO newlines, then the original text:
the other-position branch degrades to top placement but with a
single-newline separator, not to content identical to top. -/
theorem c3_other_position (config : Config) (c : String)
    (he : (config.readme_integration.getD {}).enabled.getD false = true)
    (hs : (config.outputs.getD []).filter isSvg ≠ [])
    (hp1 : (config.readme_integration.getD {}).position.getD "top" ≠ "top")
    (hp2 : (config.readme_integration.getD {}).position.getD "top" ≠ "bottom") :
    writtenContent (readme_effect config (some c))
        = some (generate_readme_content config ++ "\n" ++ c) ∧
    writtenContent (readme_effect (withPosition config (some "top")) (some c))
        = some (generate_readme_content config ++ "\n\n" ++ c) := by
  have hne := generate_readme_content_ne_empty config he hs
  have hgrc := grc_withPosition config (some "top")
  have hne2 : generate_readme_content (withPosition config (some "top")) ≠ "" := by
    rw [hgrc]; exact hne
  constructor
  · simp [readme_effect, hne, writtenContent, hp1, hp2]
  · have hpos : ((withPosition config (some "top")).readme_integration.getD {}).position.getD "top"
        = "top" := rfl
    have hpath : ((withPosition config (some "top")).readme_integration.getD {}).readme_path
        = (config.readme_integration.getD {}).readme_path := rfl
    simp [readme_effect, hne2, hne, writtenContent, hpos, hpath, hgrc]

/-- Claim C3 witness: the amended theorem applied to a concrete
configuration with position middle. -/
theorem c3_other_position_witness :
    writtenContent (readme_effect c3cfg (some "Hi"))
        = some (generate_readme_content c3cfg ++ "\n" ++ "Hi") ∧
    writtenContent (readme_effect (withPosition c3cfg (some "top")) (some "Hi"))
        = some (generate_readme_content c3cfg ++ "\n\n" ++ "Hi") :=
  c3_other_position c3cfg "Hi" rfl (by decide) (by decide) (by decide)

/-- Claim C3 counterexample: for position middle with an existing README
Hello, the written content differs from what position top writes with
the same configuration and README, refuting the claimed identity. -/
theorem c3_counterexample :
    writtenContent (readme_effect c3cfg (some "Hello"))
        = some (imgTag "a.svg" ++ "\n" ++ "Hello") ∧
    writtenContent (readme_effect (withPosition c3cfg (some "top")) (some "Hello"))
        = some (imgTag "a.svg" ++ "\n\n" ++ "Hello") ∧
    writtenContent (readme_effect c3cfg (some "Hello"))
        ≠ writtenContent (readme_effect (withPosition c3cfg (some "top")) (some "Hello")) := by
  exact ⟨by decide, by decide, by decide⟩

/-- Claim C4: with readme integration enabled, at least one svg output
and no file at the README path, `create_workflow_files` has already
written the workflow file when the README step reads the never-assigned
variable `backup_path` and dies with a NameError, for every position
value; no README file is created. -/
theorem c4_missing_readme_name_error (config : Config)
    (he : (config.readme_integration.getD {}).enabled.getD false = true)
    (hs : (config.outputs.getD []).any isSvg = true) :
    create_workflow_files config none =
      { workflow := some (".github/workflows/generate-snake.yml", generate_github_workflow config),
        readme := .nameError } := by
  have hf : (config.outputs.getD []).filter isSvg ≠ [] := by
    intro h0
    obtain ⟨o, ho, hsvg⟩ := List.any_eq_true.mp hs
    exact List.filter_eq_nil_iff.mp h0 o ho (by simp [hsvg])
  have hne := generate_readme_content_ne_empty config he hf
  simp [create_workflow_files, readme_effect, hne]

/-- Claim C4 witness: the theorem applied to a concrete configuration
with a missing README. -/
theorem c4_missing_readme_name_error_witness :
    create_workflow_files c4cfg none =
      { workflow := some (".github/workflows/generate-snake.yml", generate_github_workflow c4cfg),
        readme := .nameError } :=
  c4_missing_readme_name_error c4cfg rfl (by decide)

/-- Claim C5: the cron fragment of the workflow is empty when
`automation.enabled` is false and is the single schedule block with the
configured or default cron string when it is true or absent; the
workflow text is the trigger header followed by this fragment followed
by the rest of the template. -/
theorem c5_schedule_block (config : Config) :
    ((config.automation.getD {}).enabled.getD true = false → cron_schedule config = "") ∧
    ((config.automation.getD {}).enabled.getD true = true →
      cron_schedule config =
        "\n  schedule:\n    - cron: \""
          ++ (config.automation.getD {}).schedule.getD "0 0 1,15 * *" ++ "\"\n") ∧
    ∃ post, generate_github_workflow config =
      "name: Generate Snake Contributions\n\non:\n  push:\n    branches: [\"main\", \"master\"]\n  pull_request:\n    branches: [\"main\", \"master\"]\n"
        ++ cron_schedule config ++ post := by
  refine ⟨fun h => by simp [cron_schedule, h], fun h => by simp [cron_schedule, h], ?_⟩
  refine ⟨"\n\njobs:\n  generate-snake:\n    runs-on: ubuntu-latest\n    \n    steps:\n    - name: Checkout repository\n      uses: actions/checkout@v4\n      \n    - name: Generate snake contribution graphics\n      uses: Platane/snk@v3\n      with:\n        github_user_name: "
    ++ ((config.github.getD {}).username.getD "$\x7bgithub.repository_owner\x7d")
    ++ "\n        outputs: |\n"
    ++ rstripStr (outputs_section config)
    ++ "\n    \n    "
    ++ "- name: Commit changes\n      if: "
    ++ pyBoolStr ((config.automation.getD {}).auto_commit.getD true)
    ++ "\n      run: |\n        git config --local user.email \"action@github.com\"\n        git config --local user.name \"GitHub Action\"\n        git add .\n        git diff --staged --quiet || "
    ++ "git commit -m \""
    ++ ((config.automation.getD {}).commit_message.getD "Update snake contributions on $\x7bDATE\x7d")
    ++ "\""
    ++ "\n        git push\n        \n      env:\n        GITHUB_TOKEN: $\x7b\x7b secrets.GITHUB_TOKEN \x7d\x7d\n", ?_⟩
  simp [generate_github_workflow, String.append_assoc]

/-- Claim C5 witness: the schedule fragment is empty for a disabled
automation section and is the default block when the section is
absent. -/
theorem c5_schedule_block_witness :
    cron_schedule c5cfg = "" ∧
    cron_schedule { } = "\n  schedule:\n    - cron: \"0 0 1,15 * *\"\n" :=
  ⟨(c5_schedule_block c5cfg).1 rfl, (c5_schedule_block { }).2.1 rfl⟩

end SnakeGen

namespace SnakeGen

/-- Claim C6 (amended): `load_config` calls `sys.exit(1)` exactly when
the file is missing or the YAML is invalid; when the parsed value fails
the `github` membership test, the `ValueError` of source line 25 escapes
both `except` clauses, so the process terminates with exit code 1 (a
traceback, not the one-line message) rather than exiting 0 as the claim
states; the run continues toward exit code 0 only when the membership
test succeeds and the configuration is returned. -/
theorem c6_exit_codes (file : Option (Except String Yaml)) :
    (file = none →
      load_config file = .exitNotFound ∧ processExit (load_config file) = some 1) ∧
    (∀ e, file = some (.error e) →
      load_config file = .exitParseError ∧ processExit (load_config file) = some 1) ∧
    (∀ v, file = some (.ok v) → pyIn "github" v = .ok true →
      load_config file = .ok v ∧ processExit (load_config file) = none) ∧
    (∀ v, file = some (.ok v) → pyIn "github" v = .ok false →
      load_config file = .uncaught "ValueError" ∧ processExit (load_config file) = some 1) ∧
    (∀ v exc, file = some (.ok v) → pyIn "github" v = .error exc →
      load_config file = .uncaught exc ∧ processExit (load_config file) = some 1) := by
  refine ⟨?_, ?_, ?_, ?_, ?_⟩
  · rintro rfl
    exact ⟨rfl, rfl⟩
  · rintro e rfl
    exact ⟨rfl, rfl⟩
  · rintro v rfl hp
    simp [load_config, hp, processExit]
  · rintro v rfl hp
    simp [load_config, hp, processExit]
  · rintro v exc rfl hp
    simp [load_config, hp, processExit]

/-- Claim C6 witness: the theorem applied to a missing file and to a
mapping that has the `github` key. -/
theorem c6_exit_codes_witness :
    load_config none = .exitNotFound ∧
    processExit (load_config none) = some 1 ∧
    load_config (some (.ok (.map [("github", .map [])]))) = .ok (.map [("github", .map [])]) :=
  ⟨((c6_exit_codes none).1 rfl).1, ((c6_exit_codes none).1 rfl).2,
    ((c6_exit_codes (some (.ok (.map [("github", .map [])])))).2.2.1
      (.map [("github", .map [])]) rfl rfl).1⟩

/-- Claim C6 counterexample: a parsed mapping without a `github` key
makes `load_config` end in an uncaught `ValueError` and the process
terminate with exit code 1, not the exit code 0 the claim asserts for
this case. -/
theorem c6_counterexample :
    load_config (some (.ok (.map [("name", .str "alice")]))) = .uncaught "ValueError" ∧
    processExit (load_config (some (.ok (.map [("name", .str "alice")])))) = some 1 :=
  ⟨rfl, rfl⟩

/-- Claim C7 (amended): the commit step is always present in the
workflow text; what the auto-commit flag controls is the value of its
if condition, which is the lowercased flag, so emission is
unconditional and only execution is conditional; the configured or
default commit message is spliced in verbatim between
`git commit -m "` and the closing quote, and when the message is left
to its default the `$`-brace `DATE` placeholder occurs verbatim in the
workflow text, unsubstituted at generation time. -/
theorem c7_commit_step (config : Config) :
    occursIn ("- name: Commit changes\n      if: "
        ++ pyBoolStr ((config.automation.getD {}).auto_commit.getD true))
      (generate_github_workflow config) ∧
    occursIn ("git commit -m \""
        ++ (config.automation.getD {}).commit_message.getD "Update snake contributions on $\x7bDATE\x7d"
        ++ "\"")
      (generate_github_workflow config) ∧
    ((config.automation.getD {}).commit_message = none →
      occursIn "$\x7bDATE\x7d" (generate_github_workflow config)) := by
  refine ⟨?_, ?_, ?_⟩
  · refine ⟨"name: Generate Snake Contributions\n\non:\n  push:\n    branches: [\"main\", \"master\"]\n  pull_request:\n    branches: [\"main\", \"master\"]\n"
      ++ cron_schedule config
      ++ "\n\njobs:\n  generate-snake:\n    runs-on: ubuntu-latest\n    \n    steps:\n    - name: Checkout repository\n      uses: actions/checkout@v4\n      \n    - name: Generate snake contribution graphics\n      uses: Platane/snk@v3\n      with:\n        github_user_name: "
      ++ ((config.github.getD {}).username.getD "$\x7bgithub.repository_owner\x7d")
      ++ "\n        outputs: |\n"
      ++ rstripStr (outputs_section config)
      ++ "\n    \n    ",
      "\n      run: |\n        git config --local user.email \"action@github.com\"\n        git config --local user.name \"GitHub Action\"\n        git add .\n        git diff --staged --quiet || "
      ++ "git commit -m \""
      ++ ((config.automation.getD {}).commit_message.getD "Update snake contributions on $\x7bDATE\x7d")
      ++ "\""
      ++ "\n        git push\n        \n      env:\n        GITHUB_TOKEN: $\x7b\x7b secrets.GITHUB_TOKEN \x7d\x7d\n", ?_⟩
    simp only [generate_github_workflow, String.append_assoc]
  · refine ⟨"name: Generate Snake Contributions\n\non:\n  push:\n    branches: [\"main\", \"master\"]\n  pull_request:\n    branches: [\"main\", \"master\"]\n"
      ++ cron_schedule config
      ++ "\n\njobs:\n  generate-snake:\n    runs-on: ubuntu-latest\n    \n    steps:\n    - name: Checkout repository\n      uses: actions/checkout@v4\n      \n    - name: Generate snake contribution graphics\n      uses: Platane/snk@v3\n      with:\n        github_user_name: "
      ++ ((config.github.getD {}).username.getD "$\x7bgithub.repository_owner\x7d")
      ++ "\n        outputs: |\n"
      ++ rstripStr (outputs_section config)
      ++ "\n    \n    "
      ++ "- name: Commit changes\n      if: "
      ++ pyBoolStr ((config.automation.getD {}).auto_commit.getD true)
      ++ "\n      run: |\n        git config --local user.email \"action@github.com\"\n        git config --local user.name \"GitHub Action\"\n        git add .\n        git diff --staged --quiet || ",
      "\n        git push\n        \n      env:\n        GITHUB_TOKEN: $\x7b\x7b secrets.GITHUB_TOKEN \x7d\x7d\n", ?_⟩
    simp only [generate_github_workflow, String.append_assoc]
  · intro hcm
    have base : occursIn ("git commit -m \""
        ++ (config.automation.getD {}).commit_message.getD "Update snake contributions on $\x7bDATE\x7d"
        ++ "\"") (generate_github_workflow config) := by
      refine ⟨"name: Generate Snake Contributions\n\non:\n  push:\n    branches: [\"main\", \"master\"]\n  pull_request:\n    branches: [\"main\", \"master\"]\n"
        ++ cron_schedule config
        ++ "\n\njobs:\n  generate-snake:\n    runs-on: ubuntu-latest\n    \n    steps:\n    - name: Checkout repository\n      uses: actions/checkout@v4\n      \n    - name: Generate snake contribution graphics\n      uses: Platane/snk@v3\n      with:\n        github_user_name: "
        ++ ((config.github.getD {}).username.getD "$\x7bgithub.repository_owner\x7d")
        ++ "\n        outputs: |\n"
        ++ rstripStr (outputs_section config)
        ++ "\n    \n    "
        ++ "- name: Commit changes\n      if: "
        ++ pyBoolStr ((config.automation.getD {}).auto_commit.getD true)
        ++ "\n      run: |\n        git config --local user.email \"action@github.com\"\n        git config --local user.name \"GitHub Action\"\n        git add .\n        git diff --staged --quiet || ",
        "\n        git push\n        \n      env:\n        GITHUB_TOKEN: $\x7b\x7b secrets.GITHUB_TOKEN \x7d\x7d\n", ?_⟩
      simp only [generate_github_workflow, String.append_assoc]
    rw [hcm] at base
    refine occursIn_trans ?_ base
    exact ⟨"git commit -m \"Update snake contributions on ", "\"", by decide⟩

/-- Claim C7 witness: the amended theorem applied to a configuration
with auto-commit disabled and the default commit message. -/
theorem c7_commit_step_witness :
    occursIn ("- name: Commit changes\n      if: " ++ pyBoolStr false)
      (generate_github_workflow c7cfg) ∧
    occursIn "$\x7bDATE\x7d" (generate_github_workflow c7cfg) :=
  ⟨(c7_commit_step c7cfg).1, (c7_commit_step c7cfg).2.2 rfl⟩

/-- Claim C7 counterexample: with the auto-commit flag false, the
workflow text still contains the commit step, refuting the claim that
no commit step is emitted in that case. -/
theorem c7_counterexample :
    (c7cfg.automation.getD {}).auto_commit.getD true = false ∧
    occursIn "- name: Commit changes" (generate_github_workflow c7cfg) :=
  ⟨rfl, commit_step_always c7cfg⟩

/-- Claim C8: `generate_readme_content` returns empty markup unless
readme integration is enabled and some output has type svg; otherwise
the first svg output (expressed with `List.find?` over the outputs) is
the primary image, the first svg output whose path contains dark
case-insensitively is the dark variant, and the dual-source picture
construct is emitted exactly when such a dark variant exists and the
tag style (default picture) is picture, a single plain image reference
otherwise. -/
theorem c8_readme_markup (config : Config) :
    ((config.readme_integration.getD {}).enabled.getD false = false →
      generate_readme_content config = "") ∧
    ((config.outputs.getD []).find? isSvg = none → generate_readme_content config = "") ∧
    (∀ o, (config.readme_integration.getD {}).enabled.getD false = true →
      (config.outputs.getD []).find? isSvg = some o →
      ((((config.outputs.getD []).filter isSvg).find? isDarkPath = none ∨
          (config.readme_integration.getD {}).tag_type.getD "picture" ≠ "picture") →
        generate_readme_content config = imgTag (o.path.getD "github-snake.svg")) ∧
      (∀ d, ((config.outputs.getD []).filter isSvg).find? isDarkPath = some d →
        (config.readme_integration.getD {}).tag_type.getD "picture" = "picture" →
        generate_readme_content config
          = pictureTag (d.path.getD "") (o.path.getD "github-snake.svg"))) := by
  refine ⟨?_, ?_, ?_⟩
  · intro h
    simp [generate_readme_content, h]
  · intro h
    rw [find?_eq_head_filter] at h
    have hfil : (config.outputs.getD []).filter isSvg = [] := List.head?_eq_none_iff.mp h
    simp [generate_readme_content, hfil]
  · intro o he hfind
    rw [find?_eq_head_filter] at hfind
    obtain ⟨xs, hfl⟩ : ∃ xs, (config.outputs.getD []).filter isSvg = o :: xs := by
      cases hfl : (config.outputs.getD []).filter isSvg with
      | nil => rw [hfl] at hfind; cases hfind
      | cons x xs =>
        rw [hfl] at hfind
        simp only [List.head?_cons, Option.some.injEq] at hfind
        subst hfind
        exact ⟨xs, rfl⟩
    constructor
    · intro hcase
      rcases hcase with hnone | htag
      · rw [hfl] at hnone
        simp [generate_readme_content, he, hfl, hnone, truthy]
      · have hbeq : ((config.readme_integration.getD {}).tag_type.getD "picture" == "picture")
            = false := beq_eq_false_iff_ne.mpr htag
        simp [generate_readme_content, he, hfl, hbeq]
    · intro d hd htag
      rw [hfl] at hd
      have htr : truthy d.path = true := truthy_of_isDarkPath d (List.find?_some hd)
      simp [generate_readme_content, he, hfl, hd, htag, htr]

/-- Claim C8 witness: the theorem applied to a configuration with a
light and a dark svg output yields the picture construct. -/
theorem c8_readme_markup_witness :
    generate_readme_content c8cfg = pictureTag "b-dark.svg" "a.svg" :=
  ((c8_readme_markup c8cfg).2.2 { path := some "a.svg", type := some "svg" } rfl (by decide)).2
    { path := some "b-dark.svg", type := some "svg" } (by decide) rfl

/-- Claim C9 (amended): when the top-level YAML value is `null` (the
empty document) or another non-container scalar (a boolean or a
number), the membership test of source line 24 raises a `TypeError`
that escapes `load_config` uncaught, so the process terminates with a
traceback and exit code 1 instead of one of the three documented error
kinds; strings and lists, by contrast, do support the Python `in`
operator, so they are not covered by the claim as stated. -/
theorem c9_scalar_type_error :
    load_config (some (.ok .null)) = .uncaught "TypeError" ∧
    processExit (load_config (some (.ok .null))) = some 1 ∧
    (∀ b, load_config (some (.ok (.bool b))) = .uncaught "TypeError") ∧
    (∀ n, load_config (some (.ok (.int n))) = .uncaught "TypeError") :=
  ⟨rfl, rfl, fun _ => rfl, fun _ => rfl⟩

/-- Claim C9 counterexample: a top-level string containing the
substring `github` is a valid non-mapping YAML value for which
`load_config` raises nothing at all and returns the string as the
configuration, refuting the claim that every non-mapping top-level
value produces a `TypeError`; a top-level list behaves likewise. -/
theorem c9_counterexample :
    load_config (some (.ok (.str "github settings"))) = .ok (.str "github settings") ∧
    (∀ exc, load_config (some (.ok (.str "github settings"))) ≠ .uncaught exc) ∧
    load_config (some (.ok (.list [.str "github"]))) = .ok (.list [.str "github"]) :=
  ⟨rfl, fun _ h => LoadResult.noConfusion h, rfl⟩

/-- Claim C10: an OutputSpec that omits `type` is rendered by the
outputs loop exactly like any other (the rendered line does not depend
on the `type` field, so the loop emits one line per spec in input
order), but is never counted as an svg output, so a configuration whose
outputs all omit `type` makes `generate_readme_content` a no-op even
when readme integration is enabled. -/
theorem c10_type_omitted (config : Config)
    (h : ∀ o ∈ config.outputs.getD [], o.type = none) :
    generate_readme_content config = "" ∧
    outputs_loop 0 (config.outputs.getD [])
      = String.join ((config.outputs.getD []).enum.map fun p => output_line p.1 p.2) ∧
    ∀ (i : Nat) (o : OutputSpec) (t : Option String),
      output_line i { o with type := t } = output_line i o := by
  refine ⟨?_, ?_, ?_⟩
  · have hfil : (config.outputs.getD []).filter isSvg = [] := by
      apply List.filter_eq_nil_iff.mpr
      intro a ha
      simp [isSvg, h a ha]
    simp [generate_readme_content, hfil]
  · simp [outputs_loop_eq_join, List.enum]
  · intro i o t
    rfl

/-- Claim C10 witness: the theorem applied to a configuration whose one
output omits `type`, with readme integration enabled. -/
theorem c10_type_omitted_witness :
    generate_readme_content c10cfg = "" ∧
    outputs_loop 0 (c10cfg.outputs.getD [])
      = String.join ((c10cfg.outputs.getD []).enum.map fun p => output_line p.1 p.2) :=
  ⟨(c10_type_omitted c10cfg (by decide)).1, (c10_type_omitted c10cfg (by decide)).2.1⟩

end SnakeGen
